import Mathlib

/-!
Verification of the annotation-driven RDF serialization engine of
`pydantic-metamodel` (`src/pydantic_metamodel/api.py`).

The graph library (`rdflib`) stores a set of triples; `Graph.add` is a no-op
when the triple is already present.  We model a graph as an insertion-ordered
duplicate-free list of triples, so that both the set of triples and the order
in which they were first added are visible to the theorems.

Python values that can appear in an annotated field are modelled by the
mutually inductive family `PyValue` / `RDFInstanceBaseModel`: a field can hold
a nested model, a pre-built `Literal`, a primitive scalar (`str`, `float`,
`int`, `bool`), a `URIRef` (which is a `str` subclass in rdflib), a list of
such values, or anything else (modelled by `otherV`, carrying its printed
representation).  Exceptions are modelled by `PyError`; every graph-writing
operation returns the (possibly partially written) graph together with
`Option PyError`.
-/

set_option autoImplicit false

/-- An rdflib literal: `Literal(value)` built from a Python `str`, `float`,
`int` or `bool`, or a pre-built literal with an explicit datatype (such as
`Literal("...", datatype=XSD.anyURI)`).  A Python `float` is carried by its
printed form; no arithmetic is ever performed on it. -/
inductive RDFLit
  | ofStr (s : String)
  | ofFloat (f : String)
  | ofInt (n : Int)
  | ofBool (b : Bool)
  | withDatatype (lex : String) (datatype : String)
  deriving DecidableEq

/-- The lexical form of a literal (rdflib's `Literal` is a `str` subclass;
`str(Literal(5)) = "5"`, `str(Literal(True)) = "true"`). -/
def RDFLit.lexical : RDFLit → String
  | .ofStr s => s
  | .ofFloat f => f
  | .ofInt n => toString n
  | .ofBool b => if b then "true" else "false"
  | .withDatatype lex _ => lex

/-- A term that can occupy a position of a triple: a `URIRef`, a `Literal`,
or a blank node. -/
inductive RDFTerm
  | uri (s : String)
  | lit (l : RDFLit)
  | bnode (n : Nat)
  deriving DecidableEq

abbrev Triple := RDFTerm × RDFTerm × RDFTerm

/-- An `rdflib.Graph`: a mutable set of triples.  Modelled as the
insertion-ordered duplicate-free list of the triples added so far. -/
abbrev Graph := List Triple

/-- `Graph.add`: inserting a triple that is already present is a no-op,
otherwise the triple is appended. -/
def Graph.add (g : Graph) (t : Triple) : Graph :=
  if t ∈ g then g else g ++ [t]

def RDF_type : RDFTerm := .uri "http://www.w3.org/1999/02/22-rdf-syntax-ns#type"

def RDF_Statement : RDFTerm := .uri "http://www.w3.org/1999/02/22-rdf-syntax-ns#Statement"

def RDF_subject : RDFTerm := .uri "http://www.w3.org/1999/02/22-rdf-syntax-ns#subject"

def RDF_predicate : RDFTerm := .uri "http://www.w3.org/1999/02/22-rdf-syntax-ns#predicate"

def RDF_object : RDFTerm := .uri "http://www.w3.org/1999/02/22-rdf-syntax-ns#object"

/-- Python exceptions raised by the serialization engine. -/
inductive PyError
  | notImplemented (msg : String)
  | typeError (msg : String)
  | keyError (msg : String)
  deriving DecidableEq

/-- The triple-role markers (`IsSubject` / `IsPredicate` / `IsObject`),
subclasses of `TripleAnnotation`: they mark which field supplies each of the
three values of a reified statement's core triple. -/
inductive TripleAnnotation
  | isSubject
  | isPredicate
  | isObject
  deriving DecidableEq

def TripleAnnotation.roleName : TripleAnnotation → String
  | .isSubject => "subject"
  | .isPredicate => "predicate"
  | .isObject => "object"

/-- A piece of metadata attached to a declared field.  `withPredicate` and
`withPredicateNamespace` are the two `PredicateAnnotation` subclasses of
`api.py`; `tripleRole` is a triple-role marker; `otherMetadata` stands for
any non-RDF metadata attached to a field (e.g. pydantic validation
constraints), carried by a tag naming it. -/
inductive RDFAnnotation
  | withPredicate (predicate : RDFTerm)
  | withPredicateNamespace (predicate : RDFTerm) (ns : String)
  | tripleRole (role : TripleAnnotation)
  | otherMetadata (tag : String)
  deriving DecidableEq

/-- `isinstance(annotation, PredicateAnnotation)`: only the two concrete
predicate annotations pass the renderer's filter. -/
def isPredicateAnnotation : RDFAnnotation → Bool
  | .withPredicate _ => true
  | .withPredicateNamespace _ _ => true
  | .tripleRole _ => false
  | .otherMetadata _ => false

mutual
/-- A runtime Python value held by an annotated field.  The constructors
follow the `isinstance` chain of `WithPredicate.add_to_graph`:
a nested `RDFInstanceBaseModel`, a pre-built `Literal`, a `str`, `float`,
`int` or `bool`, a `URIRef` (a `str` subclass), a `list`, or any other
shape (carried by its printed representation). -/
inductive PyValue
  | nested (r : RDFInstanceBaseModel)
  | litV (l : RDFLit)
  | strV (s : String)
  | floatV (f : String)
  | intV (n : Int)
  | boolV (b : Bool)
  | urirefV (s : String)
  | listV (vs : PyValueList)
  | otherV (rep : String)

/-- A Python `list` of field values. -/
inductive PyValueList
  | nil
  | cons (head : PyValue) (tail : PyValueList)

/-- An instance of a concrete `RDFInstanceBaseModel` subclass: the class-level
`rdf_type`, the result of the instance's `get_uri` override (a deterministic
function of the instance, embedded by its value), and the declared fields in
declaration order. -/
inductive RDFInstanceBaseModel
  | mk (rdf_type : RDFTerm) (uri : RDFTerm) (fields : FieldList)

/-- The declared fields of a model, in declaration order; each field carries
its attached metadata list and the instance's current value for it. -/
inductive FieldList
  | nil
  | cons (metadata : List RDFAnnotation) (value : PyValue) (tail : FieldList)
end

def RDFInstanceBaseModel.rdf_type : RDFInstanceBaseModel → RDFTerm
  | .mk t _ _ => t

def RDFInstanceBaseModel.get_uri : RDFInstanceBaseModel → RDFTerm
  | .mk _ u _ => u

def RDFInstanceBaseModel.fields : RDFInstanceBaseModel → FieldList
  | .mk _ _ f => f

/-- `WithPredicateNamespace.add_to_graph` (api.py lines 65-67):
`graph.add((node, predicate, namespace[value]))`.  rdflib namespace indexing
is string concatenation (`URIRef(namespace + value)`), which raises a
`TypeError` before anything is added unless the value is a `str` instance
(`str`, `URIRef` and `Literal` are; `float`/`int`/`bool`/models/lists are
not). -/
def WithPredicateNamespace.add_to_graph (predicate : RDFTerm) (ns : String) (graph : Graph)
    (node : RDFTerm) : PyValue → Graph × Option PyError
  | .strV s => (graph.add (node, predicate, .uri (ns ++ s)), Option.none)
  | .urirefV s => (graph.add (node, predicate, .uri (ns ++ s)), Option.none)
  | .litV l => (graph.add (node, predicate, .uri (ns ++ l.lexical)), Option.none)
  | _ => (graph, Option.some (.typeError "can only concatenate str to str"))

mutual
/-- `WithPredicate.add_to_graph` (api.py lines 40-54), dispatching on the
runtime shape of the value exactly as the `isinstance` chain does. -/
def WithPredicate.add_to_graph (predicate : RDFTerm) (graph : Graph) (node : RDFTerm) :
    PyValue → Graph × Option PyError
  | .nested r => RDFInstanceBaseModel.add_to_graph r graph
  | .litV l => (graph.add (node, predicate, .lit l), Option.none)
  | .strV s => (graph.add (node, predicate, .lit (.ofStr s)), Option.none)
  | .floatV f => (graph.add (node, predicate, .lit (.ofFloat f)), Option.none)
  | .intV n => (graph.add (node, predicate, .lit (.ofInt n)), Option.none)
  | .boolV b => (graph.add (node, predicate, .lit (.ofBool b)), Option.none)
  | .urirefV s => (graph.add (node, predicate, .lit (.ofStr s)), Option.none)
  | .listV vs => WithPredicate.addList predicate graph node vs
  | .otherV rep => (graph, Option.some (.notImplemented ("unhandled: " ++ rep)))
termination_by v => sizeOf v

/-- The `for subvalue in value` loop of `WithPredicate.add_to_graph`,
stopping at the first exception. -/
def WithPredicate.addList (predicate : RDFTerm) (graph : Graph) (node : RDFTerm) :
    PyValueList → Graph × Option PyError
  | .nil => (graph, Option.none)
  | .cons v vs =>
    match WithPredicate.add_to_graph predicate graph node v with
    | (g2, Option.none) => WithPredicate.addList predicate g2 node vs
    | (g2, Option.some e) => (g2, Option.some e)
termination_by vs => sizeOf vs

/-- `RDFInstanceBaseModel.add_to_graph` (api.py lines 105-114): resolve the
node, add the type triple, then walk the declared fields. -/
def RDFInstanceBaseModel.add_to_graph (r : RDFInstanceBaseModel) (graph : Graph) :
    Graph × Option PyError :=
  match r with
  | .mk rdf_type uri fields =>
    RDFInstanceBaseModel.addFields uri (graph.add (uri, RDF_type, rdf_type)) fields
termination_by sizeOf r

/-- The `for name, field in model_fields.items()` loop. -/
def RDFInstanceBaseModel.addFields (node : RDFTerm) (graph : Graph) :
    FieldList → Graph × Option PyError
  | .nil => (graph, Option.none)
  | .cons metadata value tail =>
    match RDFInstanceBaseModel.addAnnotations node graph value metadata with
    | (g2, Option.none) => RDFInstanceBaseModel.addFields node g2 tail
    | (g2, Option.some e) => (g2, Option.some e)
termination_by fs => sizeOf fs

/-- The `for annotation in field.metadata` loop: metadata that is not a
`PredicateAnnotation` is skipped. -/
def RDFInstanceBaseModel.addAnnotations (node : RDFTerm) (graph : Graph) (value : PyValue) :
    List RDFAnnotation → Graph × Option PyError
  | [] => (graph, Option.none)
  | .withPredicate p :: rest =>
    match WithPredicate.add_to_graph p graph node value with
    | (g2, Option.none) => RDFInstanceBaseModel.addAnnotations node g2 value rest
    | (g2, Option.some e) => (g2, Option.some e)
  | .withPredicateNamespace p ns :: rest =>
    match WithPredicateNamespace.add_to_graph p ns graph node value with
    | (g2, Option.none) => RDFInstanceBaseModel.addAnnotations node g2 value rest
    | (g2, Option.some e) => (g2, Option.some e)
  | .tripleRole _ :: rest => RDFInstanceBaseModel.addAnnotations node graph value rest
  | .otherMetadata _ :: rest => RDFInstanceBaseModel.addAnnotations node graph value rest
termination_by ms => sizeOf value + sizeOf ms
end

/-- `RDFBaseModel.get_graph` (api.py lines 77-81): allocate a brand-new empty
graph, populate it, return it. -/
def RDFInstanceBaseModel.get_graph (r : RDFInstanceBaseModel) : Graph × Option PyError :=
  RDFInstanceBaseModel.add_to_graph r []

/-! ## The triple/statement record

`RDFTripleBaseModel` is part of this repository (the tests import it) but its
code is not under `src/`; it is modelled from the spec, section 4.6
"Triple/Statement Renderer". -/

/-- Modelled from the spec: an instance of `RDFTripleBaseModel` (missing from
`src/`), a record that materializes a reified statement.  It carries the
result of its identifier derivation (an anonymous node unless overridden) and
its declared fields, each with its metadata list and current value. -/
inductive RDFTripleBaseModel
  | mk (uri : RDFTerm) (fields : List (List RDFAnnotation × PyValue))

def RDFTripleBaseModel.get_uri : RDFTripleBaseModel → RDFTerm
  | .mk u _ => u

def RDFTripleBaseModel.fields : RDFTripleBaseModel → List (List RDFAnnotation × PyValue)
  | .mk _ f => f

/-- Modelled from the spec: lazy role lookup.  Exactly one field annotated
with the given role is expected; absence or duplication is surfaced as a
`KeyError` naming the role when first needed. -/
def RDFTripleBaseModel.getRole (fields : List (List RDFAnnotation × PyValue))
    (role : TripleAnnotation) : Except PyError PyValue :=
  match fields.filter (fun f => f.1.contains (.tripleRole role)) with
  | [f] => .ok f.2
  | _ => .error (.keyError role.roleName)

/-- Modelled from the spec: coercion of a role field's value to a concrete
identifier.  A nested record is rendered first (adding its own triples to the
shared graph) and contributes its own node; a raw identifier is used
directly; any other shape fails with a `TypeError`. -/
def RDFTripleBaseModel.coerceRole (graph : Graph) : PyValue → Graph × Except PyError RDFTerm
  | .nested r =>
    match RDFInstanceBaseModel.add_to_graph r graph with
    | (g2, Option.none) => (g2, .ok r.get_uri)
    | (g2, Option.some e) => (g2, .error e)
  | .urirefV s => (graph, .ok (.uri s))
  | _ => (graph, .error (.typeError "role value is neither a nested record nor an identifier"))

/-- Whether a field is one of the three role fields. -/
def RDFTripleBaseModel.hasAnyRole (metadata : List RDFAnnotation) : Bool :=
  metadata.contains (.tripleRole .isSubject) || metadata.contains (.tripleRole .isPredicate)
    || metadata.contains (.tripleRole .isObject)

/-- Modelled from the spec: step 5 of the triple renderer; every declared
field other than the three role fields has its predicate annotations applied
against the statement node. -/
def RDFTripleBaseModel.addMeta (node : RDFTerm) (graph : Graph) :
    List (List RDFAnnotation × PyValue) → Graph × Option PyError
  | [] => (graph, Option.none)
  | f :: rest =>
    if RDFTripleBaseModel.hasAnyRole f.1 then RDFTripleBaseModel.addMeta node graph rest
    else
      match RDFInstanceBaseModel.addAnnotations node graph f.2 f.1 with
      | (g2, Option.none) => RDFTripleBaseModel.addMeta node g2 rest
      | (g2, Option.some e) => (g2, Option.some e)

/-- Modelled from the spec: `RDFTripleBaseModel.add_to_graph` (section 4.6).
Coerce the subject, predicate and object role fields (rendering nested
records into the shared graph first), add the base triple, add the four
reification triples anchored at the statement node, then attach the remaining
predicate-annotated fields to the statement node. -/
def RDFTripleBaseModel.add_to_graph (t : RDFTripleBaseModel) (graph : Graph) :
    Graph × Option PyError :=
  match t with
  | .mk uri fields =>
    match RDFTripleBaseModel.getRole fields .isSubject with
    | .error e => (graph, Option.some e)
    | .ok sv =>
      match RDFTripleBaseModel.coerceRole graph sv with
      | (g1, .error e) => (g1, Option.some e)
      | (g1, .ok s) =>
        match RDFTripleBaseModel.getRole fields .isPredicate with
        | .error e => (g1, Option.some e)
        | .ok pv =>
          match RDFTripleBaseModel.coerceRole g1 pv with
          | (g2, .error e) => (g2, Option.some e)
          | (g2, .ok p) =>
            match RDFTripleBaseModel.getRole fields .isObject with
            | .error e => (g2, Option.some e)
            | .ok ov =>
              match RDFTripleBaseModel.coerceRole g2 ov with
              | (g3, .error e) => (g3, Option.some e)
              | (g3, .ok o) =>
                let g4 := ((((g3.add (s, p, o)).add
                  (uri, RDF_type, RDF_Statement)).add
                  (uri, RDF_subject, s)).add
                  (uri, RDF_predicate, p)).add
                  (uri, RDF_object, o)
                RDFTripleBaseModel.addMeta uri g4 fields

/-- Modelled from the spec: `get_graph` populates a brand-new graph. -/
def RDFTripleBaseModel.get_graph (t : RDFTripleBaseModel) : Graph × Option PyError :=
  RDFTripleBaseModel.add_to_graph t []

/-! ## Vocabulary for the claims -/

abbrev GraphOp := Graph → Graph × Option PyError

/-- `g2` extends `g`: no triple was removed, new triples were only appended
after the existing ones. -/
def ExtendsGraph (g g2 : Graph) : Prop := ∃ tail, g2 = g ++ tail

/-- A graph operation is localized when the set of triples it adds and the
error it reports are the same regardless of what triples are already present,
and every triple already present is preserved. -/
def Localized (F : GraphOp) : Prop :=
  ∀ g : Graph,
    (F g).1.toFinset = g.toFinset ∪ (F []).1.toFinset
    ∧ (F g).2 = (F []).2
    ∧ ExtendsGraph g (F g).1

/-- `Localized` strengthened with preservation of duplicate-freedom; the form
the structural induction proves. -/
def GoodOp (F : GraphOp) : Prop :=
  ∀ g : Graph,
    (F g).1.toFinset = g.toFinset ∪ (F []).1.toFinset
    ∧ (F g).2 = (F []).2
    ∧ ExtendsGraph g (F g).1
    ∧ (g.Nodup → (F g).1.Nodup)

/-- Sequencing of two graph-writing statements: run the second only when the
first did not raise. -/
def seqOp (F G : GraphOp) : GraphOp := fun g =>
  match F g with
  | (g2, Option.none) => G g2
  | (g2, Option.some e) => (g2, Option.some e)

/-- A value is text-shaped (a Python `str` instance) when it is a plain
string, a `URIRef` or a `Literal`. -/
def textShaped : PyValue → Bool
  | .strV _ => true
  | .urirefV _ => true
  | .litV _ => true
  | _ => false

/-- The value shapes supported by `WithPredicate`: nested record, pre-built
literal, primitive scalar (text, number, boolean) and ordered sequence. -/
def supportedShape : PyValue → Bool
  | .otherV _ => false
  | _ => true

/-- Two sequential calls `add_to_graph(g, n, a)` then `add_to_graph(g, n, b)`
under the same predicate, the second running only if the first did not
raise. -/
def twoSequentialCalls (predicate : RDFTerm) (graph : Graph) (node : RDFTerm)
    (a b : PyValue) : Graph × Option PyError :=
  match WithPredicate.add_to_graph predicate graph node a with
  | (g2, Option.none) => WithPredicate.add_to_graph predicate g2 node b
  | (g2, Option.some e) => (g2, Option.some e)

/-! ## Basic lemmas about the graph model -/

theorem Graph.mem_add_self (g : Graph) (t : Triple) : t ∈ g.add t := by
  unfold Graph.add; split
  · assumption
  · simp

theorem Graph.mem_add_of_mem {g : Graph} {t : Triple} (t2 : Triple) (h : t ∈ g) :
    t ∈ g.add t2 := by
  unfold Graph.add; split
  · exact h
  · exact List.mem_append_left _ h

theorem Graph.toFinset_add (g : Graph) (t : Triple) :
    (g.add t).toFinset = insert t g.toFinset := by
  unfold Graph.add; split
  · next h => exact (Finset.insert_eq_self.2 (List.mem_toFinset.2 h)).symm
  · simp [List.toFinset_append, Finset.insert_eq, Finset.union_comm]

theorem Graph.nodup_add {g : Graph} (t : Triple) (h : g.Nodup) : (g.add t).Nodup := by
  unfold Graph.add; split
  · exact h
  · next hmem => simp [List.nodup_append, h, hmem]

theorem Graph.empty_add (t : Triple) : Graph.add [] t = [t] := by
  unfold Graph.add; simp

theorem ExtendsGraph.refl (g : Graph) : ExtendsGraph g g := ⟨[], by simp⟩

theorem ExtendsGraph.trans {g1 g2 g3 : Graph} (h1 : ExtendsGraph g1 g2)
    (h2 : ExtendsGraph g2 g3) : ExtendsGraph g1 g3 := by
  obtain ⟨t1, rfl⟩ := h1
  obtain ⟨t2, rfl⟩ := h2
  exact ⟨t1 ++ t2, by simp⟩

theorem Graph.extends_add (g : Graph) (t : Triple) : ExtendsGraph g (g.add t) := by
  unfold Graph.add; split
  · exact ExtendsGraph.refl g
  · exact ⟨[t], rfl⟩

theorem ExtendsGraph.mem {g g2 : Graph} {t : Triple} (h : ExtendsGraph g g2) (ht : t ∈ g) :
    t ∈ g2 := by
  obtain ⟨tail, rfl⟩ := h
  exact List.mem_append_left _ ht

/-! ## GoodOp combinators -/

theorem goodOp_pure (e : Option PyError) : GoodOp (fun g => (g, e)) := by
  intro g
  exact ⟨by simp, rfl, ExtendsGraph.refl g, fun h => h⟩

theorem goodOp_add (t : Triple) : GoodOp (fun g => (g.add t, Option.none)) := by
  intro g
  refine ⟨?_, rfl, Graph.extends_add g t, fun h => Graph.nodup_add t h⟩
  simp [Graph.toFinset_add, Finset.insert_eq, Finset.union_comm]

theorem goodOp_seq {F G : GraphOp} (hF : GoodOp F) (hG : GoodOp G) : GoodOp (seqOp F G) := by
  intro g
  have hFg := hF g
  have hGg := hG (F g).1
  have hG0 := hG (F []).1
  simp only [seqOp]
  rcases h1 : F g with ⟨g1, e1⟩
  rcases h0 : F [] with ⟨g0, e0⟩
  rw [h1] at hFg hGg
  rw [h0] at hFg hG0
  dsimp only at hFg hGg hG0
  obtain ⟨hFa, hFb, hFc, hFd⟩ := hFg
  subst hFb
  cases e1 with
  | some e => exact ⟨hFa, rfl, hFc, hFd⟩
  | none =>
    obtain ⟨hGa, hGb, hGc, hGd⟩ := hGg
    obtain ⟨hGa0, hGb0, hGc0, hGd0⟩ := hG0
    refine ⟨?_, hGb.trans hGb0.symm, hFc.trans hGc, fun hn => hGd (hFd hn)⟩
    show (G g1).1.toFinset = g.toFinset ∪ (G g0).1.toFinset
    rw [hGa, hGa0, hFa, Finset.union_assoc]

/-! ## The operations of api.py are localized graph operations -/

theorem goodOp_wpns (predicate : RDFTerm) (ns : String) (node : RDFTerm) (v : PyValue) :
    GoodOp (fun g => WithPredicateNamespace.add_to_graph predicate ns g node v) := by
  cases v <;> simp only [WithPredicateNamespace.add_to_graph] <;>
    first
      | exact goodOp_add _
      | exact goodOp_pure _

mutual
theorem goodOp_wp (predicate node : RDFTerm) (v : PyValue) :
    GoodOp (fun g => WithPredicate.add_to_graph predicate g node v) := by
  cases v with
  | nested r => simpa only [WithPredicate.add_to_graph] using goodOp_instance r
  | litV l => simp only [WithPredicate.add_to_graph]; exact goodOp_add _
  | strV s => simp only [WithPredicate.add_to_graph]; exact goodOp_add _
  | floatV f => simp only [WithPredicate.add_to_graph]; exact goodOp_add _
  | intV n => simp only [WithPredicate.add_to_graph]; exact goodOp_add _
  | boolV b => simp only [WithPredicate.add_to_graph]; exact goodOp_add _
  | urirefV s => simp only [WithPredicate.add_to_graph]; exact goodOp_add _
  | listV vs => simpa only [WithPredicate.add_to_graph] using goodOp_wpList predicate node vs
  | otherV rep => simp only [WithPredicate.add_to_graph]; exact goodOp_pure _
termination_by sizeOf v

theorem goodOp_wpList (predicate node : RDFTerm) (vs : PyValueList) :
    GoodOp (fun g => WithPredicate.addList predicate g node vs) := by
  cases vs with
  | nil => simp only [WithPredicate.addList]; exact goodOp_pure _
  | cons v tailv =>
    simp only [WithPredicate.addList]
    exact goodOp_seq (goodOp_wp predicate node v) (goodOp_wpList predicate node tailv)
termination_by sizeOf vs

theorem goodOp_instance (r : RDFInstanceBaseModel) :
    GoodOp (fun g => RDFInstanceBaseModel.add_to_graph r g) := by
  cases r with
  | mk ty uri fields =>
    simp only [RDFInstanceBaseModel.add_to_graph]
    exact goodOp_seq (goodOp_add (uri, RDF_type, ty)) (goodOp_addFields uri fields)
termination_by sizeOf r

theorem goodOp_addFields (node : RDFTerm) (fs : FieldList) :
    GoodOp (fun g => RDFInstanceBaseModel.addFields node g fs) := by
  cases fs with
  | nil => simp only [RDFInstanceBaseModel.addFields]; exact goodOp_pure _
  | cons metadata value tailf =>
    simp only [RDFInstanceBaseModel.addFields]
    exact goodOp_seq (goodOp_addAnnotations node value metadata) (goodOp_addFields node tailf)
termination_by sizeOf fs

theorem goodOp_addAnnotations (node : RDFTerm) (value : PyValue) (ms : List RDFAnnotation) :
    GoodOp (fun g => RDFInstanceBaseModel.addAnnotations node g value ms) := by
  cases ms with
  | nil => simp only [RDFInstanceBaseModel.addAnnotations]; exact goodOp_pure _
  | cons a rest =>
    cases a with
    | withPredicate p =>
      simp only [RDFInstanceBaseModel.addAnnotations]
      exact goodOp_seq (goodOp_wp p node value) (goodOp_addAnnotations node value rest)
    | withPredicateNamespace p ns =>
      simp only [RDFInstanceBaseModel.addAnnotations]
      exact goodOp_seq (goodOp_wpns p ns node value) (goodOp_addAnnotations node value rest)
    | tripleRole ro =>
      simpa only [RDFInstanceBaseModel.addAnnotations] using
        goodOp_addAnnotations node value rest
    | otherMetadata tag =>
      simpa only [RDFInstanceBaseModel.addAnnotations] using
        goodOp_addAnnotations node value rest
termination_by sizeOf value + sizeOf ms
end

/-- Localization for the role-coercion step, which returns the coerced term
or an error alongside the graph. -/
def GoodCoerce (F : Graph → Graph × Except PyError RDFTerm) : Prop :=
  ∀ g : Graph,
    (F g).1.toFinset = g.toFinset ∪ (F []).1.toFinset
    ∧ (F g).2 = (F []).2
    ∧ ExtendsGraph g (F g).1
    ∧ (g.Nodup → (F g).1.Nodup)

theorem goodCoerce_coerceRole (v : PyValue) :
    GoodCoerce (fun g => RDFTripleBaseModel.coerceRole g v) := by
  cases v with
  | nested r =>
    intro g
    obtain ⟨ha, hb, hc, hd⟩ := goodOp_instance r g
    simp only [RDFTripleBaseModel.coerceRole]
    dsimp only at ha hb hc hd
    rcases h1 : RDFInstanceBaseModel.add_to_graph r g with ⟨g1, e1⟩
    rcases h0 : RDFInstanceBaseModel.add_to_graph r [] with ⟨g0, e0⟩
    rw [h1] at ha hb hc hd
    rw [h0] at ha hb
    dsimp only at ha hb hc hd
    subst hb
    cases e1 <;> exact ⟨ha, rfl, hc, hd⟩
  | litV l =>
    exact fun g =>
      ⟨by simp [RDFTripleBaseModel.coerceRole], rfl, ExtendsGraph.refl g, fun h => h⟩
  | strV s =>
    exact fun g =>
      ⟨by simp [RDFTripleBaseModel.coerceRole], rfl, ExtendsGraph.refl g, fun h => h⟩
  | floatV f =>
    exact fun g =>
      ⟨by simp [RDFTripleBaseModel.coerceRole], rfl, ExtendsGraph.refl g, fun h => h⟩
  | intV n =>
    exact fun g =>
      ⟨by simp [RDFTripleBaseModel.coerceRole], rfl, ExtendsGraph.refl g, fun h => h⟩
  | boolV b =>
    exact fun g =>
      ⟨by simp [RDFTripleBaseModel.coerceRole], rfl, ExtendsGraph.refl g, fun h => h⟩
  | urirefV s =>
    exact fun g =>
      ⟨by simp [RDFTripleBaseModel.coerceRole], rfl, ExtendsGraph.refl g, fun h => h⟩
  | listV vs =>
    exact fun g =>
      ⟨by simp [RDFTripleBaseModel.coerceRole], rfl, ExtendsGraph.refl g, fun h => h⟩
  | otherV rep =>
    exact fun g =>
      ⟨by simp [RDFTripleBaseModel.coerceRole], rfl, ExtendsGraph.refl g, fun h => h⟩

theorem goodOp_addMeta (node : RDFTerm) (fs : List (List RDFAnnotation × PyValue)) :
    GoodOp (fun g => RDFTripleBaseModel.addMeta node g fs) := by
  induction fs with
  | nil => simp only [RDFTripleBaseModel.addMeta]; exact goodOp_pure _
  | cons f rest ih =>
    by_cases hc : RDFTripleBaseModel.hasAnyRole f.1 = true
    · simpa only [RDFTripleBaseModel.addMeta, if_pos hc] using ih
    · simp only [RDFTripleBaseModel.addMeta, if_neg hc]
      exact goodOp_seq (goodOp_addAnnotations node f.2 f.1) ih

/-! ## Claims -/

/-- Claim C1: for every graph, node and value that is a nested record,
`WithPredicate(p).add_to_graph(g, n, v)` defers entirely to the nested
record's own graph-populating operation — the resulting graph (and error)
are exactly those produced by `v.add_to_graph(g)` — and in particular no
direct triple `(n, p, _)` is added beyond what the nested record's own
operation produces. -/
theorem claim_C1_nested_record_defers (predicate : RDFTerm) (g : Graph) (node : RDFTerm)
    (r : RDFInstanceBaseModel) :
    WithPredicate.add_to_graph predicate g node (.nested r)
      = RDFInstanceBaseModel.add_to_graph r g
    ∧ ∀ x : RDFTerm,
      (node, predicate, x) ∈ (WithPredicate.add_to_graph predicate g node (.nested r)).1
      → (node, predicate, x) ∈ (RDFInstanceBaseModel.add_to_graph r g).1 := by
  refine ⟨?_, ?_⟩
  · simp only [WithPredicate.add_to_graph]
  · intro x hx
    simpa only [WithPredicate.add_to_graph] using hx

/-- Claim C2: rendering a typed-instance record emits the type triple
`(node, rdf:type, declaredType)` exactly once in the freshly populated
graph, and it is the graph's first triple — added before any field-derived
triple. -/
theorem claim_C2_type_triple (r : RDFInstanceBaseModel) :
    (r.get_graph).1.count (r.get_uri, RDF_type, r.rdf_type) = 1
    ∧ (r.get_graph).1.head? = some (r.get_uri, RDF_type, r.rdf_type) := by
  rcases r with ⟨ty, uri, fields⟩
  simp only [RDFInstanceBaseModel.get_graph, RDFInstanceBaseModel.add_to_graph,
    RDFInstanceBaseModel.get_uri, RDFInstanceBaseModel.rdf_type, Graph.empty_add]
  obtain ⟨ha, hb, hc, hd⟩ := goodOp_addFields uri fields [(uri, RDF_type, ty)]
  dsimp only at ha hb hc hd
  obtain ⟨tail, htail⟩ := hc
  have hnd : (RDFInstanceBaseModel.addFields uri [(uri, RDF_type, ty)] fields).1.Nodup :=
    hd (by simp)
  rw [htail] at hnd ⊢
  have hnotmem : (uri, RDF_type, ty) ∉ tail := by
    intro hmem
    simp only [List.singleton_append, List.nodup_cons] at hnd
    exact hnd.1 hmem
  constructor
  · simp [List.count_cons, List.count_eq_zero.2 hnotmem]
  · simp

/-- Claim C4: `WithPredicateNamespace(pred, NS).add_to_graph(g, n, "X")`
adds exactly the single triple `(n, pred, NS ++ "X")` — the namespace
concatenation — and nothing else, raising no error. -/
theorem claim_C4_namespace_concatenation (predicate : RDFTerm) (ns : String) (g : Graph)
    (node : RDFTerm) (x : String) :
    WithPredicateNamespace.add_to_graph predicate ns g node (.strV x)
      = (g.add (node, predicate, .uri (ns ++ x)), Option.none)
    ∧ (WithPredicateNamespace.add_to_graph predicate ns g node (.strV x)).1.toFinset
      = insert (node, predicate, RDFTerm.uri (ns ++ x)) g.toFinset :=
  ⟨rfl, Graph.toFinset_add g _⟩

/-- Claim C5: `WithPredicateNamespace.add_to_graph` on any value that is not
text-shaped (not a Python `str` instance — e.g. a numeric value) fails with a
`TypeError`-class error and leaves the graph exactly as it was: no triple is
added before the failure. -/
theorem claim_C5_namespace_type_error (predicate : RDFTerm) (ns : String) (g : Graph)
    (node : RDFTerm) (v : PyValue) (h : textShaped v = false) :
    WithPredicateNamespace.add_to_graph predicate ns g node v
      = (g, Option.some (.typeError "can only concatenate str to str")) := by
  cases v with
  | strV s => simp [textShaped] at h
  | urirefV s => simp [textShaped] at h
  | litV l => simp [textShaped] at h
  | nested r => rfl
  | floatV f => rfl
  | intV n => rfl
  | boolV b => rfl
  | listV vs => rfl
  | otherV rep => rfl

/-- Witness for C5 at the numeric value `0.5` (the shape the repository's
test uses), in the empty graph. -/
theorem claim_C5_witness :
    textShaped (.floatV "0.5") = false
    ∧ WithPredicateNamespace.add_to_graph (.uri "https://example.org/hasWikidata")
        "https://www.wikidata.org/wiki/" [] (.uri "https://orcid.org/0") (.floatV "0.5")
      = ([], Option.some (.typeError "can only concatenate str to str")) :=
  ⟨rfl, claim_C5_namespace_type_error _ _ _ _ _ rfl⟩

/-- Claim C6: `WithPredicate.add_to_graph` on a value whose shape is not one
of the supported ones (nested record, pre-built literal, primitive scalar,
sequence) fails with the unsupported-value error naming the offending value,
and adds no triple to the graph. -/
theorem claim_C6_unsupported_value (predicate : RDFTerm) (g : Graph) (node : RDFTerm)
    (v : PyValue) (h : supportedShape v = false) :
    ∃ rep, v = .otherV rep
      ∧ WithPredicate.add_to_graph predicate g node v
        = (g, Option.some (.notImplemented ("unhandled: " ++ rep))) := by
  cases v with
  | otherV rep => exact ⟨rep, rfl, by simp only [WithPredicate.add_to_graph]⟩
  | nested r => simp [supportedShape] at h
  | litV l => simp [supportedShape] at h
  | strV s => simp [supportedShape] at h
  | floatV f => simp [supportedShape] at h
  | intV n => simp [supportedShape] at h
  | boolV b => simp [supportedShape] at h
  | urirefV s => simp [supportedShape] at h
  | listV vs => simp [supportedShape] at h

/-- Witness for C6 at the unsupported value `None`, in the empty graph. -/
theorem claim_C6_witness :
    supportedShape (.otherV "None") = false
    ∧ ∃ rep, PyValue.otherV "None" = .otherV rep
      ∧ WithPredicate.add_to_graph (.uri "https://example.org/p") []
          (.uri "https://example.org/n") (.otherV "None")
        = ([], Option.some (.notImplemented ("unhandled: " ++ rep))) :=
  ⟨rfl, claim_C6_unsupported_value _ _ _ _ rfl⟩

theorem wp_cons_eq (predicate : RDFTerm) (g : Graph) (node : RDFTerm) (v : PyValue)
    (vs : PyValueList) :
    WithPredicate.add_to_graph predicate g node (.listV (.cons v vs))
      = twoSequentialCalls predicate g node v (.listV vs) := by
  simp only [WithPredicate.add_to_graph, WithPredicate.addList, twoSequentialCalls]

theorem wp_singleton_eq (predicate : RDFTerm) (g : Graph) (node : RDFTerm) (b : PyValue) :
    WithPredicate.add_to_graph predicate g node (.listV (.cons b .nil))
      = WithPredicate.add_to_graph predicate g node b := by
  conv_lhs => rw [WithPredicate.add_to_graph]
  simp only [WithPredicate.addList]
  rcases h : WithPredicate.add_to_graph predicate g node b with ⟨g2, e⟩
  cases e
  · simp only [WithPredicate.addList]
  · rfl

/-- Claim C7: applying `WithPredicate` to the list `[a, b]` leaves the graph
(and error state) exactly as the two sequential calls with `a` then `b`
would; more generally, applying it to `v :: vs` equals the sequential
composition of the call on `v` and the call on the remaining list. -/
theorem claim_C7_list_fanout (predicate : RDFTerm) (g : Graph) (node : RDFTerm)
    (a b : PyValue) :
    WithPredicate.add_to_graph predicate g node (.listV (.cons a (.cons b .nil)))
      = twoSequentialCalls predicate g node a b
    ∧ ∀ (v : PyValue) (vs : PyValueList),
      WithPredicate.add_to_graph predicate g node (.listV (.cons v vs))
        = twoSequentialCalls predicate g node v (.listV vs) := by
  constructor
  · rw [wp_cons_eq]
    simp only [twoSequentialCalls]
    rcases h : WithPredicate.add_to_graph predicate g node a with ⟨g2, e⟩
    cases e
    · exact wp_singleton_eq predicate g2 node b
    · rfl
  · exact fun v vs => wp_cons_eq predicate g node v vs

theorem addAnnotations_skip (node : RDFTerm) (value : PyValue)
    (metadata : List RDFAnnotation)
    (h : metadata.all (fun a => ! isPredicateAnnotation a) = true) (g : Graph) :
    RDFInstanceBaseModel.addAnnotations node g value metadata = (g, Option.none) := by
  induction metadata generalizing g with
  | nil => simp only [RDFInstanceBaseModel.addAnnotations]
  | cons a rest ih =>
    simp only [List.all_cons, Bool.and_eq_true] at h
    cases a with
    | withPredicate p => simp [ isPredicateAnnotation] at h
    | withPredicateNamespace p ns => simp [ isPredicateAnnotation] at h
    | tripleRole ro =>
      simpa only [RDFInstanceBaseModel.addAnnotations] using ih h.2 g
    | otherMetadata tag =>
      simpa only [RDFInstanceBaseModel.addAnnotations] using ih h.2 g

/-- Claim C8: a declared field whose metadata contains no annotation
implementing the predicate-annotation protocol contributes zero triples:
its annotation pass leaves the graph untouched, and rendering a record with
such a field equals rendering the record without it.  Non-annotation
metadata is ignored by the traversal. -/
theorem claim_C8_optin_serialization (ty node : RDFTerm) (metadata : List RDFAnnotation)
    (value : PyValue) (tail : FieldList) (g : Graph)
    (h : metadata.all (fun a => ! isPredicateAnnotation a) = true) :
    RDFInstanceBaseModel.addAnnotations node g value metadata = (g, Option.none)
    ∧ RDFInstanceBaseModel.add_to_graph (.mk ty node (.cons metadata value tail)) g
      = RDFInstanceBaseModel.add_to_graph (.mk ty node tail) g := by
  have hskip := addAnnotations_skip node value metadata h
  refine ⟨hskip g, ?_⟩
  simp only [RDFInstanceBaseModel.add_to_graph, RDFInstanceBaseModel.addFields, hskip]

/-- Witness for C8: a field carrying only a validation constraint contributes
nothing. -/
theorem claim_C8_witness :
    ([ RDFAnnotation.otherMetadata "Gt"].all (fun a => ! isPredicateAnnotation a) = true)
    ∧ (RDFInstanceBaseModel.addAnnotations (.uri "https://example.org/n") [] (.intV 5)
         [.otherMetadata "Gt"] = ([], Option.none)
       ∧ RDFInstanceBaseModel.add_to_graph
           (.mk (.uri "https://example.org/T") (.uri "https://example.org/n")
             (.cons [.otherMetadata "Gt"] (.intV 5) .nil)) []
         = RDFInstanceBaseModel.add_to_graph
           (.mk (.uri "https://example.org/T") (.uri "https://example.org/n") .nil) []) :=
  ⟨by decide,
    claim_C8_optin_serialization (.uri "https://example.org/T")
      (.uri "https://example.org/n") [.otherMetadata "Gt"] (.intV 5) .nil [] (by decide)⟩

/-- Claim C9: `get_graph` populates a brand-new empty graph — it equals
`add_to_graph` on the empty graph, with no state carried over — so two
independent calls on the same instance produce identical results, in
particular identical triple sets. -/
theorem claim_C9_get_graph_deterministic (r : RDFInstanceBaseModel)
    (out1 out2 : Graph × Option PyError)
    (h1 : out1 = r.get_graph) (h2 : out2 = r.get_graph) :
    out1 = out2
    ∧ out1.1.toFinset = out2.1.toFinset
    ∧ r.get_graph = RDFInstanceBaseModel.add_to_graph r [] := by
  subst h1; subst h2
  exact ⟨rfl, rfl, rfl⟩

/-- Witness for C9 on a concrete one-field record. -/
theorem claim_C9_witness :
    ((RDFInstanceBaseModel.get_graph
        (.mk (.uri "https://example.org/T") (.uri "https://example.org/n")
          (.cons [.withPredicate (.uri "https://example.org/p")] (.strV "hello") .nil)))
      = (RDFInstanceBaseModel.get_graph
        (.mk (.uri "https://example.org/T") (.uri "https://example.org/n")
          (.cons [.withPredicate (.uri "https://example.org/p")] (.strV "hello") .nil))))
    ∧ ((RDFInstanceBaseModel.get_graph
        (.mk (.uri "https://example.org/T") (.uri "https://example.org/n")
          (.cons [.withPredicate (.uri "https://example.org/p")] (.strV "hello") .nil)))
      = (RDFInstanceBaseModel.get_graph
        (.mk (.uri "https://example.org/T") (.uri "https://example.org/n")
          (.cons [.withPredicate (.uri "https://example.org/p")] (.strV "hello") .nil)))
      ∧ (RDFInstanceBaseModel.get_graph
          (.mk (.uri "https://example.org/T") (.uri "https://example.org/n")
            (.cons [.withPredicate (.uri "https://example.org/p")] (.strV "hello") .nil))).1.toFinset
        = (RDFInstanceBaseModel.get_graph
          (.mk (.uri "https://example.org/T") (.uri "https://example.org/n")
            (.cons [.withPredicate (.uri "https://example.org/p")] (.strV "hello") .nil))).1.toFinset
      ∧ RDFInstanceBaseModel.get_graph
          (.mk (.uri "https://example.org/T") (.uri "https://example.org/n")
            (.cons [.withPredicate (.uri "https://example.org/p")] (.strV "hello") .nil))
        = RDFInstanceBaseModel.add_to_graph
          (.mk (.uri "https://example.org/T") (.uri "https://example.org/n")
            (.cons [.withPredicate (.uri "https://example.org/p")] (.strV "hello") .nil)) []) :=
  ⟨rfl, claim_C9_get_graph_deterministic _ _ _ rfl rfl⟩

/-- Claim C10: every annotation's `add_to_graph` operation and the record
renderer are localized: the set of triples each adds and the error each
reports are the same regardless of the triples already present, and every
triple already present is preserved (read-field-and-append only). -/
theorem claim_C10_operations_localized :
    (∀ (predicate node : RDFTerm) (v : PyValue),
      Localized (fun g => WithPredicate.add_to_graph predicate g node v))
    ∧ (∀ (predicate : RDFTerm) (ns : String) (node : RDFTerm) (v : PyValue),
      Localized (fun g => WithPredicateNamespace.add_to_graph predicate ns g node v))
    ∧ (∀ r : RDFInstanceBaseModel,
      Localized (fun g => RDFInstanceBaseModel.add_to_graph r g)) := by
  refine ⟨fun p n v g => ?_, fun p ns n v g => ?_, fun r g => ?_⟩
  · obtain ⟨a, b, c, _⟩ := goodOp_wp p n v g
    exact ⟨a, b, c⟩
  · obtain ⟨a, b, c, _⟩ := goodOp_wpns p ns n v g
    exact ⟨a, b, c⟩
  · obtain ⟨a, b, c, _⟩ := goodOp_instance r g
    exact ⟨a, b, c⟩

/-- In a duplicate-free graph, a present triple occurs exactly once. -/
theorem count_eq_one_of_nodup_mem {t : Triple} {g : Graph} (hn : g.Nodup) (hm : t ∈ g) :
    g.count t = 1 := by
  induction g with
  | nil => simp at hm
  | cons a l ih =>
    rw [List.count_cons]
    rcases List.mem_cons.1 hm with h | h
    · subst h
      have hnot : t ∉ l := (List.nodup_cons.1 hn).1
      simp [List.count_eq_zero.2 hnot]
    · have hne : a ≠ t := by
        rintro rfl
        exact (List.nodup_cons.1 hn).1 h
      have hc := ih (List.nodup_cons.1 hn).2 h
      simp [hc, hne]

/-- Reassociation of the membership disjunctions used for the reification
shape. -/
theorem or_shuffle (p1 p2 p3 p4 p5 q m : Prop) :
    ((p5 ∨ p4 ∨ p3 ∨ p2 ∨ p1 ∨ q) ∨ m) ↔ ((q ∨ p1 ∨ p2 ∨ p3 ∨ p4 ∨ p5) ∨ m) := by
  tauto

/-- The triples a role field contributes on its own: its value's coercion
run against a fresh graph (the nested record's full rendering, or nothing
when the role value is a raw identifier). -/
def roleTriples (v : PyValue) : Graph := (RDFTripleBaseModel.coerceRole [] v).1

/-- The triples the non-role predicate-annotated fields of a triple record
contribute, anchored at the statement node, run against a fresh graph. -/
def metaTriples (node : RDFTerm) (fields : List (List RDFAnnotation × PyValue)) : Graph :=
  (RDFTripleBaseModel.addMeta node [] fields).1

set_option maxHeartbeats 2000000 in
/-- Claim C3 (spec-modelled): a triple record with one subject-role, one
predicate-role and one object-role field, whose role values coerce to S, P
and O, renders to exactly: the sub-triples of the three role values'
nested records, the single base triple (S, P, O), the four reification
triples anchored at the record's own statement node, and the triples of the
metadata-annotated fields anchored at the statement node.  The base triple
and each of the four reification triples occur exactly once. -/
theorem claim_C3_reification_shape (uri S P O : RDFTerm)
    (fields : List (List RDFAnnotation × PyValue)) (sv pv ov : PyValue)
    (hs : RDFTripleBaseModel.getRole fields .isSubject = .ok sv)
    (hp : RDFTripleBaseModel.getRole fields .isPredicate = .ok pv)
    (ho : RDFTripleBaseModel.getRole fields .isObject = .ok ov)
    (hS : (RDFTripleBaseModel.coerceRole [] sv).2 = .ok S)
    (hP : (RDFTripleBaseModel.coerceRole [] pv).2 = .ok P)
    (hO : (RDFTripleBaseModel.coerceRole [] ov).2 = .ok O) :
    ((RDFTripleBaseModel.get_graph (.mk uri fields)).1.toFinset
      = (roleTriples sv).toFinset ∪ (roleTriples pv).toFinset ∪ (roleTriples ov).toFinset
        ∪ ({(S, P, O), (uri, RDF_type, RDF_Statement), (uri, RDF_subject, S),
            (uri, RDF_predicate, P), (uri, RDF_object, O)} : Finset Triple)
        ∪ (metaTriples uri fields).toFinset)
    ∧ (RDFTripleBaseModel.get_graph (.mk uri fields)).1.count (S, P, O) = 1
    ∧ (RDFTripleBaseModel.get_graph (.mk uri fields)).1.count (uri, RDF_type, RDF_Statement) = 1
    ∧ (RDFTripleBaseModel.get_graph (.mk uri fields)).1.count (uri, RDF_subject, S) = 1
    ∧ (RDFTripleBaseModel.get_graph (.mk uri fields)).1.count (uri, RDF_predicate, P) = 1
    ∧ (RDFTripleBaseModel.get_graph (.mk uri fields)).1.count (uri, RDF_object, O) = 1 := by
  -- the three coercion steps, with their localization facts
  have hd1 := goodCoerce_coerceRole sv []
  rcases h1 : RDFTripleBaseModel.coerceRole [] sv with ⟨g1, r1⟩
  rw [h1] at hS
  dsimp only at hS
  subst hS
  have hrole1 : roleTriples sv = g1 := by
    unfold roleTriples
    rw [h1]
  obtain ⟨a2, b2, c2, d2⟩ := goodCoerce_coerceRole pv g1
  dsimp only at a2 b2 c2 d2
  rcases h2 : RDFTripleBaseModel.coerceRole g1 pv with ⟨g2, r2⟩
  rw [h2] at a2 b2 c2 d2
  rw [hP] at b2
  dsimp only at a2 b2 c2 d2
  subst b2
  obtain ⟨a3, b3, c3, d3⟩ := goodCoerce_coerceRole ov g2
  dsimp only at a3 b3 c3 d3
  rcases h3 : RDFTripleBaseModel.coerceRole g2 ov with ⟨g3, r3⟩
  rw [h3] at a3 b3 c3 d3
  rw [hO] at b3
  dsimp only at a3 b3 c3 d3
  subst b3
  -- reduce the renderer to the add-chain followed by the metadata pass
  simp only [RDFTripleBaseModel.get_graph, RDFTripleBaseModel.add_to_graph, hs, hp, ho,
    h1, h2, h3]
  obtain ⟨am, bm, cm, dm⟩ := goodOp_addMeta uri fields
    (((((g3.add (S, P, O)).add (uri, RDF_type, RDF_Statement)).add
      (uri, RDF_subject, S)).add (uri, RDF_predicate, P)).add (uri, RDF_object, O))
  dsimp only at am bm cm dm
  -- duplicate-freedom along the whole chain
  have hnod1 : g1.Nodup := by
    obtain ⟨_, _, _, d1⟩ := hd1
    dsimp only at d1
    rw [h1] at d1
    exact d1 List.nodup_nil
  have hnod3 : g3.Nodup := d3 (d2 hnod1)
  have hnod4 :
      ((((((g3.add (S, P, O)).add (uri, RDF_type, RDF_Statement)).add
        (uri, RDF_subject, S)).add (uri, RDF_predicate, P)).add (uri, RDF_object, O))).Nodup :=
    Graph.nodup_add _ (Graph.nodup_add _ (Graph.nodup_add _ (Graph.nodup_add _
      (Graph.nodup_add _ hnod3))))
  have hnodG := dm hnod4
  -- the five triples of the record's own node are all present
  have hm1 : (S, P, O) ∈ (((((g3.add (S, P, O)).add (uri, RDF_type, RDF_Statement)).add
      (uri, RDF_subject, S)).add (uri, RDF_predicate, P)).add (uri, RDF_object, O)) :=
    Graph.mem_add_of_mem _ (Graph.mem_add_of_mem _ (Graph.mem_add_of_mem _
      (Graph.mem_add_of_mem _ (Graph.mem_add_self g3 _))))
  have hm2 : (uri, RDF_type, RDF_Statement) ∈ (((((g3.add (S, P, O)).add
      (uri, RDF_type, RDF_Statement)).add
      (uri, RDF_subject, S)).add (uri, RDF_predicate, P)).add (uri, RDF_object, O)) :=
    Graph.mem_add_of_mem _ (Graph.mem_add_of_mem _ (Graph.mem_add_of_mem _
      (Graph.mem_add_self _ _)))
  have hm3 : (uri, RDF_subject, S) ∈ (((((g3.add (S, P, O)).add
      (uri, RDF_type, RDF_Statement)).add
      (uri, RDF_subject, S)).add (uri, RDF_predicate, P)).add (uri, RDF_object, O)) :=
    Graph.mem_add_of_mem _ (Graph.mem_add_of_mem _ (Graph.mem_add_self _ _))
  have hm4 : (uri, RDF_predicate, P) ∈ (((((g3.add (S, P, O)).add
      (uri, RDF_type, RDF_Statement)).add
      (uri, RDF_subject, S)).add (uri, RDF_predicate, P)).add (uri, RDF_object, O)) :=
    Graph.mem_add_of_mem _ (Graph.mem_add_self _ _)
  have hm5 : (uri, RDF_object, O) ∈ (((((g3.add (S, P, O)).add
      (uri, RDF_type, RDF_Statement)).add
      (uri, RDF_subject, S)).add (uri, RDF_predicate, P)).add (uri, RDF_object, O)) :=
    Graph.mem_add_self _ _
  refine ⟨?_, count_eq_one_of_nodup_mem hnodG (ExtendsGraph.mem cm hm1),
    count_eq_one_of_nodup_mem hnodG (ExtendsGraph.mem cm hm2),
    count_eq_one_of_nodup_mem hnodG (ExtendsGraph.mem cm hm3),
    count_eq_one_of_nodup_mem hnodG (ExtendsGraph.mem cm hm4),
    count_eq_one_of_nodup_mem hnodG (ExtendsGraph.mem cm hm5)⟩
  -- the triple-set characterization
  have hmeta : (RDFTripleBaseModel.addMeta uri [] fields).1 = metaTriples uri fields := rfl
  have hrp : (RDFTripleBaseModel.coerceRole [] pv).1 = roleTriples pv := rfl
  have hro : (RDFTripleBaseModel.coerceRole [] ov).1 = roleTriples ov := rfl
  rw [hmeta] at am
  rw [hrp] at a2
  rw [hro] at a3
  have hsets : ∀ X M : Finset Triple,
      insert (uri, RDF_object, O) (insert (uri, RDF_predicate, P) (insert (uri, RDF_subject, S)
        (insert (uri, RDF_type, RDF_Statement) (insert (S, P, O) X)))) ∪ M
      = X ∪ ({(S, P, O), (uri, RDF_type, RDF_Statement), (uri, RDF_subject, S),
          (uri, RDF_predicate, P), (uri, RDF_object, O)} : Finset Triple) ∪ M := by
    intro X M
    ext x
    simp only [Finset.mem_union, Finset.mem_insert, Finset.mem_singleton]
    exact or_shuffle _ _ _ _ _ _ _
  rw [am, Graph.toFinset_add, Graph.toFinset_add, Graph.toFinset_add, Graph.toFinset_add,
    Graph.toFinset_add, hsets, a3, a2, ← hrole1]

/-- A concrete triple record's fields: three raw-identifier role fields. -/
def exampleTripleFields : List (List RDFAnnotation × PyValue) :=
  [([.tripleRole .isSubject], .urirefV "https://example.org/a"),
   ([.tripleRole .isPredicate], .urirefV "https://example.org/p"),
   ([.tripleRole .isObject], .urirefV "https://example.org/b")]

/-- Witness for C3 on a concrete triple record with raw-identifier role
values. -/
theorem claim_C3_witness :
    (RDFTripleBaseModel.getRole exampleTripleFields .isSubject
        = .ok (.urirefV "https://example.org/a")
      ∧ RDFTripleBaseModel.getRole exampleTripleFields .isPredicate
        = .ok (.urirefV "https://example.org/p")
      ∧ RDFTripleBaseModel.getRole exampleTripleFields .isObject
        = .ok (.urirefV "https://example.org/b")
      ∧ (RDFTripleBaseModel.coerceRole [] (.urirefV "https://example.org/a")).2
        = .ok (.uri "https://example.org/a")
      ∧ (RDFTripleBaseModel.coerceRole [] (.urirefV "https://example.org/p")).2
        = .ok (.uri "https://example.org/p")
      ∧ (RDFTripleBaseModel.coerceRole [] (.urirefV "https://example.org/b")).2
        = .ok (.uri "https://example.org/b"))
    ∧ (((RDFTripleBaseModel.get_graph
          (.mk (.uri "https://example.org/stmt") exampleTripleFields)).1.toFinset
        = (roleTriples (.urirefV "https://example.org/a")).toFinset
          ∪ (roleTriples (.urirefV "https://example.org/p")).toFinset
          ∪ (roleTriples (.urirefV "https://example.org/b")).toFinset
          ∪ ({(.uri "https://example.org/a", .uri "https://example.org/p",
               .uri "https://example.org/b"),
              (.uri "https://example.org/stmt", RDF_type, RDF_Statement),
              (.uri "https://example.org/stmt", RDF_subject, .uri "https://example.org/a"),
              (.uri "https://example.org/stmt", RDF_predicate, .uri "https://example.org/p"),
              (.uri "https://example.org/stmt", RDF_object, .uri "https://example.org/b")}
            : Finset Triple)
          ∪ (metaTriples (.uri "https://example.org/stmt") exampleTripleFields).toFinset)
      ∧ (RDFTripleBaseModel.get_graph
          (.mk (.uri "https://example.org/stmt") exampleTripleFields)).1.count
          (.uri "https://example.org/a", .uri "https://example.org/p",
           .uri "https://example.org/b") = 1
      ∧ (RDFTripleBaseModel.get_graph
          (.mk (.uri "https://example.org/stmt") exampleTripleFields)).1.count
          (.uri "https://example.org/stmt", RDF_type, RDF_Statement) = 1
      ∧ (RDFTripleBaseModel.get_graph
          (.mk (.uri "https://example.org/stmt") exampleTripleFields)).1.count
          (.uri "https://example.org/stmt", RDF_subject, .uri "https://example.org/a") = 1
      ∧ (RDFTripleBaseModel.get_graph
          (.mk (.uri "https://example.org/stmt") exampleTripleFields)).1.count
          (.uri "https://example.org/stmt", RDF_predicate, .uri "https://example.org/p") = 1
      ∧ (RDFTripleBaseModel.get_graph
          (.mk (.uri "https://example.org/stmt") exampleTripleFields)).1.count
          (.uri "https://example.org/stmt", RDF_object, .uri "https://example.org/b") = 1) :=
  ⟨⟨rfl, rfl, rfl, rfl, rfl, rfl⟩,
    claim_C3_reification_shape (.uri "https://example.org/stmt") (.uri "https://example.org/a")
      (.uri "https://example.org/p") (.uri "https://example.org/b") exampleTripleFields
      (.urirefV "https://example.org/a") (.urirefV "https://example.org/p")
      (.urirefV "https://example.org/b") rfl rfl rfl rfl rfl rfl⟩
